import Mathlib

/-!
Verification of the Intercepta browser extension's interception and
approval protocol, shallowly embedded in Lean 4.

The embedding follows the repository's sources:
* the in-page provider interceptor (MAIN-world content script:
  `wrapRequestMethod`, `transactionMethods`, the `pendingTransactions`
  map, the 5-minute timeout, and the `PLASMO_TRANSACTION_RESPONSE`
  listener);
* the isolated-world relay (`contents/relay.ts`): forwarding of
  `PLASMO_ETHEREUM_INTERCEPTED` payloads to the background and the
  synthesized rejection on delivery failure;
* the background coordinator (history-retaining variant:
  `handleTransactionIntercepted`, `handlePendingTransaction`,
  `approveTransaction`, `rejectTransaction`);
* the static transaction analyzer (`utils/transaction-analyzer.ts`).
-/

namespace Intercepta

/-! ## Data model -/

/-- Status of an intercepted call: `status?: 'pending' | 'approved' | 'rejected'`. -/
inductive TxStatus where
  | pending
  | approved
  | rejected
deriving DecidableEq, Repr

/-- The `InterceptedTransaction` record built by the interceptor
(`id`, `method`, `params`, `timestamp`, `origin`, `userAgent`,
`intercepted`, `status`) plus the `tabId` field the coordinator attaches.
`params` entries are opaque to the core and modelled as strings. -/
structure InterceptedTx where
  id : String
  method : String
  params : List String
  timestamp : Nat
  origin : String
  userAgent : String
  intercepted : Bool
  status : TxStatus
  tabId : Option Nat
deriving DecidableEq, Repr

/-! ## Provider interceptor: classification and the wrapped request -/

/-- The `transactionMethods` allow-list from `wrapRequestMethod`,
verbatim from the source. -/
def transactionMethods : List String :=
  [ "eth_sendTransaction"
  , "eth_signTransaction"
  , "eth_sendRawTransaction"
  , "eth_sign"
  , "personal_sign"
  , "eth_signTypedData"
  , "eth_signTypedData_v1"
  , "eth_signTypedData_v3"
  , "eth_signTypedData_v4"
  , "wallet_sendDomainMetadata"
  , "wallet_addEthereumChain"
  , "wallet_switchEthereumChain" ]

/-- Modelled from the spec: the spec's enumerated reviewable methods —
"transaction send, transaction sign, raw transaction send, legacy message
sign, personal message sign, typed-data sign (all versions), chain-add,
chain-switch".  Used only to compare the spec's enumeration against the
source's `transactionMethods`. -/
def specEnumeratedReviewable : List String :=
  [ "eth_sendTransaction"
  , "eth_signTransaction"
  , "eth_sendRawTransaction"
  , "eth_sign"
  , "personal_sign"
  , "eth_signTypedData"
  , "eth_signTypedData_v1"
  , "eth_signTypedData_v3"
  , "eth_signTypedData_v4"
  , "wallet_addEthereumChain"
  , "wallet_switchEthereumChain" ]

/-- Arguments to the provider's `request` entry point:
`{ method: string; params?: any[] }`. -/
structure RpcArgs where
  method : String
  params : List String
deriving DecidableEq, Repr

/-- Result of a provider call: the promise either fulfils with a value or
rejects with an error message. -/
inductive RpcResult where
  | success (v : String)
  | failure (msg : String)
deriving DecidableEq, Repr

/-- How the environment eventually settles a reviewable call's approval
promise: the first of an approve decision, a reject decision, or the
5-minute timeout. -/
inductive Outcome where
  | approvedResume
  | rejectedFail
  | timeoutFail
deriving DecidableEq, Repr

/-- The `InterceptedTransaction` payload the interceptor builds for a
reviewable call (lines building `interceptedData`): fresh id, the call's
method and params (`args.params || []`), current time, page origin,
user agent, `intercepted: true`, `status: 'pending'`; no `tabId` yet. -/
def mkInterceptedTx (txId : String) (args : RpcArgs) (ts : Nat)
    (origin ua : String) : InterceptedTx :=
  { id := txId
  , method := args.method
  , params := args.params
  , timestamp := ts
  , origin := origin
  , userAgent := ua
  , intercepted := true
  , status := .pending
  , tabId := none }

/-- Observable effect of one call through the wrapped `request` method:
the value the page-side promise settles with, the list of argument
records passed to the original (unwrapped) entry point, whether a
transaction id was generated, whether a pending future was registered in
the `pendingTransactions` map, and the outbound
`PLASMO_ETHEREUM_INTERCEPTED` payloads posted to the window. -/
structure WrapEffect where
  result : RpcResult
  origCalls : List RpcArgs
  idGenerated : Bool
  futureRegistered : Bool
  messagesPosted : List InterceptedTx
deriving Repr

/-- Shallow embedding of the wrapped `request` method.  `orig` is the
bound original request method; `decision` is how the environment settles
the approval promise of a reviewable call (decision message or timeout).
Reviewable branch: generate an id, register a future, post one
intercepted payload, await the decision — approved resumes into
`originalRequest(args)`, a rejection rethrows
`Transaction rejected by user`, the timeout rethrows
`Transaction approval timeout`.  Any other method forwards directly:
`return originalRequest(args)`. -/
def wrappedRequest (orig : RpcArgs → RpcResult) (txId : String) (ts : Nat)
    (origin ua : String) (decision : Outcome) (args : RpcArgs) : WrapEffect :=
  if args.method ∈ transactionMethods then
    { result :=
        match decision with
        | .approvedResume => orig args
        | .rejectedFail => .failure "Transaction rejected by user"
        | .timeoutFail => .failure "Transaction approval timeout"
    , origCalls :=
        match decision with
        | .approvedResume => [args]
        | _ => []
    , idGenerated := true
    , futureRegistered := true
    , messagesPosted := [mkInterceptedTx txId args ts origin ua] }
  else
    { result := orig args
    , origCalls := [args]
    , idGenerated := false
    , futureRegistered := false
    , messagesPosted := [] }

/-! ## Pending-future state machine (per call id)

The interceptor keeps `pendingTransactions : Map<string, {resolve, reject}>`.
Per call id, the relevant state is whether the map still holds the entry
and, once settled, which outcome the future received.  The two code paths
that can settle it are the `PLASMO_TRANSACTION_RESPONSE` window listener
and the 5-minute `setTimeout` callback; both are guarded by presence in
the map and delete the entry when they fire. -/

/-- Events observable by one pending future: a
`PLASMO_TRANSACTION_RESPONSE` message for some id, or a timeout callback
firing for some id. -/
inductive PageEvent where
  | response (txId : String) (approved : Bool)
  | timeoutFire (txId : String)
deriving DecidableEq, Repr

/-- Per-id projection of the interceptor state: `inMap` is membership of
this id in `pendingTransactions`; `outcome` is the settled value of the
approval promise, if settled. -/
structure FutureState where
  inMap : Bool
  outcome : Option Outcome
deriving DecidableEq, Repr

/-- State right after the reviewable call registered its future:
in the map, promise unsettled. -/
def FutureState.start : FutureState := { inMap := true, outcome := none }

/-- One event against the future for `selfId`.  The response listener:
`get(transactionId)`, and only if found, resolve (`'approved'`) or reject
(`Transaction rejected by user`) and `delete` the entry.  The timeout
callback: only if `has(transactionId)`, `delete` and reject with the
timeout error.  Events for other ids do not touch this entry. -/
def stepFuture (selfId : String) (e : PageEvent) (s : FutureState) : FutureState :=
  match e with
  | .response txId approved =>
      if txId = selfId ∧ s.inMap = true then
        { inMap := false
        , outcome := some (if approved then .approvedResume else .rejectedFail) }
      else s
  | .timeoutFire txId =>
      if txId = selfId ∧ s.inMap = true then
        { inMap := false, outcome := some .timeoutFail }
      else s

/-- Run a sequence of events against one future. -/
def runFuture (selfId : String) (es : List PageEvent) (s : FutureState) : FutureState :=
  es.foldl (fun st e => stepFuture selfId e st) s

/-! ## Cross-context relay (`contents/relay.ts`) -/

/-- Shallow embedding of the relay's `PLASMO_ETHEREUM_INTERCEPTED`
handler, projected to the `PLASMO_TRANSACTION_RESPONSE` messages it posts
back into the page.  `delivered` models whether
`chrome.runtime.sendMessage` reached the background
(`chrome.runtime.lastError` unset).  On delivery failure with
`requiresApproval` set, the relay synthesizes
`{ transactionId, approved: false }`; otherwise it posts nothing back. -/
def relayOnIntercepted (delivered : Bool) (requiresApproval : Bool)
    (txId : String) : List PageEvent :=
  if delivered then []
  else if requiresApproval then [PageEvent.response txId false]
  else []

/-! ## Approval coordinator (history-retaining background variant)

State: `chrome.storage.local` under keys `pending_transactions` and
`intercepted_transactions`, each an ordered array of records. -/

/-- Coordinator store: the `pending_transactions` and
`intercepted_transactions` (history) arrays. -/
structure CoordState where
  pending : List InterceptedTx
  history : List InterceptedTx
deriving DecidableEq, Repr

/-- Empty store: `result[KEY] || []` yields `[]` for both keys. -/
def CoordState.empty : CoordState := { pending := [], history := [] }

/-- `handlePendingTransaction(transaction, tabId)`: sets
`transaction.tabId = tabId` and pushes it onto the pending array,
unconditionally.  (Identical pending-array logic in both background
variants.) -/
def handlePendingTransaction (tx : InterceptedTx) (tabId : Option Nat)
    (s : CoordState) : CoordState :=
  { s with pending := s.pending ++ [{ tx with tabId := tabId }] }

/-- `handleTransactionIntercepted(transaction)`: pushes onto the history
array, then `if (transactions.length > 100) transactions.splice(0,
transactions.length - 100)` — keep only the last 100. -/
def handleTransactionIntercepted (tx : InterceptedTx) (s : CoordState) : CoordState :=
  let txs := s.history ++ [tx]
  { s with history := if txs.length > 100 then txs.drop (txs.length - 100) else txs }

/-- `findIndex(tx => tx.id === transactionId)` followed by
`splice(transactionIndex, 1)`: returns the first record whose id matches
together with the array with that record removed, or `none` when no
record matches. -/
def removeFirstById (txId : String) : List InterceptedTx →
    Option (InterceptedTx × List InterceptedTx)
  | [] => none
  | tx :: rest =>
      if tx.id = txId then some (tx, rest)
      else
        match removeFirstById txId rest with
        | some (t, rest') => some (t, tx :: rest')
        | none => none

/-- `approveTransaction(transactionId, tabId)`: locate the pending record
by id; if found, set its status to `'approved'`, remove it from pending,
push it onto history (no capacity trim on this path), and store both
arrays; if not found, reject with `Transaction not found` (modelled as
`none`). -/
def approveTransaction (txId : String) (s : CoordState) : Option CoordState :=
  match removeFirstById txId s.pending with
  | some (tx, rest) =>
      some { pending := rest
           , history := s.history ++ [{ tx with status := .approved }] }
  | none => none

/-- `rejectTransaction(transactionId, tabId)`: same as approval but the
moved record's status is set to `'rejected'`. -/
def rejectTransaction (txId : String) (s : CoordState) : Option CoordState :=
  match removeFirstById txId s.pending with
  | some (tx, rest) =>
      some { pending := rest
           , history := s.history ++ [{ tx with status := .rejected }] }
  | none => none

/-! ## Static transaction analyzer (`utils/transaction-analyzer.ts`) -/

/-- Risk tiers: `'low' | 'medium' | 'high'`. -/
inductive Risk where
  | low
  | medium
  | high
deriving DecidableEq, Repr

/-- The decoded ERC-20 transfer in `details.tokenTransfer`. -/
structure TokenTransfer where
  token : String
  amount : String
  recipient : String
deriving DecidableEq, Repr

/-- The `details` object of a `TransactionAnalysis`. -/
structure AnalysisDetails where
  isContractInteraction : Bool
  functionName : Option String
  tokenTransfer : Option TokenTransfer
deriving DecidableEq, Repr

/-- `TransactionAnalysis`: risk tier, warning strings, details. -/
structure TransactionAnalysis where
  risk : Risk
  warnings : List String
  details : AnalysisDetails
deriving DecidableEq, Repr

/-- `KNOWN_MALICIOUS_ADDRESSES`: the list is empty in the source
("Add known phishing/scam addresses here"). -/
def KNOWN_MALICIOUS_ADDRESSES : List String := []

/-- `KNOWN_TOKENS` lookup table, verbatim. -/
def KNOWN_TOKENS : List (String × String) :=
  [ ("0xa0b86991c6218b36c1d19d4a2e9eb0ce3606eb48", "USDC")
  , ("0xdac17f958d2ee523a2206206994597c13d831ec7", "USDT")
  , ("0x6b175474e89094c44da98b954eedeac495271d0f", "DAI") ]

/-- JS `s.includes(pat)` for a nonempty pattern: `splitOn` yields more
than one piece exactly when the pattern occurs. -/
def strIncludes (s pat : String) : Bool :=
  (s.splitOn pat).length != 1

/-- Value of one hexadecimal digit, as `parseInt(-, 16)` accepts it. -/
def hexDigitVal (c : Char) : Option Nat :=
  if '0' ≤ c ∧ c ≤ '9' then some (c.toNat - '0'.toNat)
  else if 'a' ≤ c ∧ c ≤ 'f' then some (c.toNat - 'a'.toNat + 10)
  else if 'A' ≤ c ∧ c ≤ 'F' then some (c.toNat - 'A'.toNat + 10)
  else none

/-- Accumulate the maximal leading run of hex digits; `none` when no
digit was consumed (JS `parseInt` returns `NaN` then). -/
def takeHexDigits : List Char → Nat → Bool → Option Nat
  | [], acc, seen => if seen then some acc else none
  | c :: rest, acc, seen =>
      match hexDigitVal c with
      | some d => takeHexDigits rest (acc * 16 + d) true
      | none => if seen then some acc else none

/-- JS `parseInt(s, 16)`: skip an optional `0x`/`0X` prefix, then parse
the maximal run of hex digits; `NaN` (here `none`) when none. -/
def jsParseHex (s : String) : Option Nat :=
  let cs := s.toList
  let cs := if s.startsWith "0x" || s.startsWith "0X" then cs.drop 2 else cs
  takeHexDigits cs 0 false

/-- Left-pad a numeral with zeros to the given width. -/
def zeroPad (width n : Nat) : String :=
  let s := toString n
  (List.replicate (width - s.length) '0').asString ++ s

/-- `(wei / 1e18).toFixed(4)`: decimal rendering of a wei amount in ETH
with four fractional digits (JS float rounding abstracted to exact
decimal rounding). -/
def ethFixed4 (wei : Nat) : String :=
  let r := (wei + 5 * 10 ^ 13) / 10 ^ 14
  toString (r / 10 ^ 4) ++ "." ++ zeroPad 4 (r % 10 ^ 4)

/-- `(gas / 1e9).toFixed(2)`: decimal rendering of a wei gas price in
Gwei with two fractional digits (JS float rounding abstracted to exact
decimal rounding). -/
def gweiFixed2 (gas : Nat) : String :=
  let r := (gas + 5 * 10 ^ 6) / 10 ^ 7
  toString (r / 10 ^ 2) ++ "." ++ zeroPad 2 (r % 10 ^ 2)

/-- `decodeFunctionSignature`: the verbatim selector table, defaulting to
`Unknown (<signature>)`. -/
def decodeFunctionSignature (signature : String) : String :=
  let commonFunctions : List (String × String) :=
    [ ("0xa9059cbb", "transfer")
    , ("0x095ea7b3", "approve")
    , ("0x23b872dd", "transferFrom")
    , ("0x39509351", "increaseAllowance")
    , ("0xa457c2d7", "decreaseAllowance")
    , ("0x70a08231", "balanceOf")
    , ("0xdd62ed3e", "allowance")
    , ("0x06fdde03", "name")
    , ("0x95d89b41", "symbol")
    , ("0x313ce567", "decimals")
    , ("0x18160ddd", "totalSupply")
    , ("0x40c10f19", "mint")
    , ("0x42966c68", "burn")
    , ("0xa0712d68", "mint")
    , ("0x6a627842", "mint")
    , ("0xd505accf", "permit")
    , ("0x7ff36ab5", "swapExactETHForTokens")
    , ("0x18cbafe5", "swapExactTokensForETH")
    , ("0x38ed1739", "swapExactTokensForTokens")
    , ("0xfb3bdb41", "swapETHForExactTokens")
    , ("0x4a25d94a", "swapTokensForExactETH")
    , ("0x8803dbee", "swapTokensForExactTokens")
    , ("0xfb0f3ee1", "fulfillBasicOrder")
    , ("0x00000000", "fulfillOrder")
    , ("0xe8e33700", "addLiquidity")
    , ("0xf305d719", "addLiquidityETH")
    , ("0xbaa2abde", "removeLiquidity")
    , ("0x02751cec", "removeLiquidityETH")
    , ("0xaf2979eb", "removeLiquidityETHSupportingFeeOnTransferTokens")
    , ("0x5c11d795", "swapExactTokensForTokensSupportingFeeOnTransferTokens") ]
  (commonFunctions.lookup signature).getD ("Unknown (" ++ signature ++ ")")

/-- `isRiskyFunction`: membership in the risky-selector list. -/
def isRiskyFunction (signature : String) : Bool :=
  [ "0x095ea7b3", "0x39509351", "0xd505accf", "0x40c10f19", "0x42966c68"
  ].contains signature

/-- The first element of `params` for `eth_sendTransaction`, with the
fields the analyzer sniffs; every field is optional as in the source. -/
structure EthTxParams where
  «to» : Option String
  data : Option String
  value : Option String
  gasPrice : Option String
  maxFeePerGas : Option String
deriving DecidableEq, Repr

/-- JS truthiness for an optional string field: present and nonempty. -/
def truthyStr : Option String → Option String
  | some s => if s != "" then some s else none
  | none => none

/-- `tx.data && tx.data !== '0x'`: the calldata when the transaction is
a contract interaction. -/
def contractData (tx : EthTxParams) : Option String :=
  match truthyStr tx.data with
  | some d => if d ≠ "0x" then some d else none
  | none => none

/-- The function-signature block: when the calldata has a selector,
decode it, and when the selector is risky, add the warning and raise the
risk to `'medium'`.  Returns `details.functionName`, the warnings pushed,
and the risk after this block. -/
def functionSigStep (tx : EthTxParams) : Option String × List String × Risk :=
  match contractData tx with
  | some d =>
      if d.length ≥ 10 then
        let functionSig := d.take 10
        ( some (decodeFunctionSignature functionSig)
        , if isRiskyFunction functionSig then
            ["⚠️ Interacting with potentially risky function"]
          else []
        , if isRiskyFunction functionSig then Risk.medium else Risk.low )
      else (none, [], Risk.low)
  | none => (none, [], Risk.low)

/-- The malicious-recipient test on `tx.«to»` against
`KNOWN_MALICIOUS_ADDRESSES`, lower-cased. -/
def maliciousRecipient (tx : EthTxParams) : Bool :=
  match truthyStr tx.«to» with
  | some t => KNOWN_MALICIOUS_ADDRESSES.contains t.toLower
  | none => false

/-- The malicious-recipient block: push the danger warning and set risk
`'high'` when the recipient is a known malicious address. -/
def maliciousStep (tx : EthTxParams) (r : Risk) : List String × Risk :=
  if maliciousRecipient tx then
    (["🚨 DANGER: Known malicious address!"], Risk.high)
  else ([], r)

/-- `parseInt(tx.value, 16)` when `tx.value` is truthy. -/
def valueWei (tx : EthTxParams) : Option Nat :=
  match truthyStr tx.value with
  | some v => jsParseHex v
  | none => none

/-- The high-value block: when the parsed value exceeds 1 ETH, push the
warning and raise `'low'` to `'medium'` (leaving a higher risk as is). -/
def highValueStep (tx : EthTxParams) (r : Risk) : List String × Risk :=
  match valueWei tx with
  | some n =>
      if 10 ^ 18 < n then
        ( ["⚠️ High value transfer: " ++ (ethFixed4 n ++ " ETH")]
        , if r = Risk.low then Risk.medium else r )
      else ([], r)
  | none => ([], r)

/-- The gas-price selection `tx.maxFeePerGas || tx.gasPrice`. -/
def gasSelected (tx : EthTxParams) : Option String :=
  match truthyStr tx.maxFeePerGas with
  | some g => some g
  | none => truthyStr tx.gasPrice

/-- The gas block: warn (without touching the risk) when the selected
gas price exceeds 200 Gwei. -/
def gasWarnings (tx : EthTxParams) : List String :=
  match gasSelected tx with
  | some g =>
      match jsParseHex g with
      | some n =>
          if 200 * 10 ^ 9 < n then
            ["⚠️ Very high gas price: " ++ (gweiFixed2 n ++ " Gwei")]
          else []
      | none => []
  | none => []

/-- The ERC-20 decode block, entered when the call is a contract
interaction whose calldata starts with the `transfer(address,uint256)`
selector: decode recipient and amount, look the token up by recipient
address. -/
def tokenTransferStep (tx : EthTxParams) : Option TokenTransfer :=
  match contractData tx with
  | some d =>
      if d.startsWith "0xa9059cbb" then
        some { token :=
                 match tx.«to» with
                 | some t => (KNOWN_TOKENS.lookup t.toLower).getD "Unknown Token"
                 | none => "Unknown Token"
             , amount := (d.drop 74).take 64
             , recipient := "0x" ++ (d.drop 34).take 40 }
      else none
  | none => none

/-- The `eth_sendTransaction` block of `analyzeTransaction`: contract /
function-signature sniffing, the malicious-recipient check, the
high-value check, the gas-price check, and ERC-20 transfer decoding, in
source order.  Returns the accumulated risk, the warnings in push order,
and the details object. -/
def sendTransactionChecks (tx : EthTxParams) : Risk × List String × AnalysisDetails :=
  let fn := functionSigStep tx
  let danger := maliciousStep tx fn.2.2
  let value := highValueStep tx danger.2
  ( value.2
  , fn.2.1 ++ danger.1 ++ value.1 ++ gasWarnings tx
  , { isContractInteraction := (contractData tx).isSome
    , functionName := fn.1
    , tokenTransfer := tokenTransferStep tx } )

/-- The signing-method and `wallet_` blocks of `analyzeTransaction`,
threaded over the risk and warnings accumulated so far. -/
def signWalletChecks (method : String) (r : Risk) (w : List String) :
    Risk × List String :=
  let signStep : Risk × List String :=
    if strIncludes method "sign" then
      let w1 := w ++ ["📝 Signing operation - verify the message carefully"]
      if method = "eth_signTypedData_v4" then
        (Risk.medium, w1 ++ ["⚠️ Complex signature request - review all fields"])
      else (r, w1)
    else (r, w)
  if strIncludes method "wallet_" then
    let addStep : Risk × List String :=
      if method = "wallet_addEthereumChain" then
        (Risk.medium, signStep.2 ++ ["🔗 Adding new network - verify chain parameters"])
      else signStep
    if method = "wallet_switchEthereumChain" then
      (addStep.1, addStep.2 ++ ["🔄 Switching network"])
    else addStep
  else signStep

/-- `analyzeTransaction(method, params)`: risk starts `'low'`, warnings
empty, `details.isContractInteraction` false; the
`eth_sendTransaction && params[0]` block runs first, then the `sign` and
`wallet_` blocks. -/
def analyzeTransaction (method : String) (param0 : Option EthTxParams) :
    TransactionAnalysis :=
  let base : Risk × List String × AnalysisDetails :=
    ( Risk.low, []
    , { isContractInteraction := false, functionName := none, tokenTransfer := none } )
  let afterSend :=
    match param0 with
    | some tx => if method = "eth_sendTransaction" then sendTransactionChecks tx else base
    | none => base
  let final := signWalletChecks method afterSend.1 afterSend.2.1
  { risk := final.1, warnings := final.2, details := afterSend.2.2 }

/-! ## Install idempotence (`wrapRequestMethod` guard) -/

/-- A provider as seen by `wrapRequestMethod`: its object identity
(`pid`, the key the `WeakSet` tracks) and whether it has a `request`
method to wrap. -/
structure Provider where
  pid : Nat
  hasRequest : Bool
deriving DecidableEq, Repr

/-- Page-wide interception state: the `wrappedProviders` `WeakSet`
(identity-keyed) and, per provider identity, how many wrapping layers
have been installed over its `request` method. -/
structure InstallState where
  wrappedProviders : List Nat
  layers : Nat → Nat

/-- Fresh page state: nothing wrapped. -/
def InstallState.start : InstallState :=
  { wrappedProviders := [], layers := fun _ => 0 }

/-- `wrapRequestMethod(provider)`: skip if the `WeakSet` already has the
provider; otherwise add it to the set, and if the provider has a
`request` method, replace it with the wrapper (one more layer).  A
provider without a `request` method is added to the set but not
wrapped. -/
def installWrap (p : Provider) (s : InstallState) : InstallState :=
  if p.pid ∈ s.wrappedProviders then s
  else
    { wrappedProviders := p.pid :: s.wrappedProviders
    , layers := fun q =>
        if q = p.pid ∧ p.hasRequest = true then s.layers q + 1 else s.layers q }

/-! ## Helper lemmas and stub values -/

/-- A concrete original request method, used to instantiate witnesses. -/
def origStub : RpcArgs → RpcResult := fun _ => RpcResult.success "0x1"

/-- A settled future (entry gone from the map) absorbs every further
event. -/
theorem stepFuture_settled (selfId : String) (e : PageEvent) (s : FutureState)
    (h : s.inMap = false) : stepFuture selfId e s = s := by
  cases e <;> simp [stepFuture, h]

/-- One step preserves "settled implies removed from the map". -/
theorem stepFuture_pres_inv (selfId : String) (e : PageEvent) (s : FutureState)
    (h : s.outcome.isSome = true → s.inMap = false) :
    (stepFuture selfId e s).outcome.isSome = true → (stepFuture selfId e s).inMap = false := by
  cases e <;> simp only [stepFuture] <;> split <;> simp_all

/-- Along any event run from a state where a settled future is already
out of the map, that invariant persists. -/
theorem runFuture_inv (selfId : String) (es : List PageEvent) :
    ∀ s : FutureState, (s.outcome.isSome = true → s.inMap = false) →
      ((runFuture selfId es s).outcome.isSome = true →
        (runFuture selfId es s).inMap = false) := by
  induction es with
  | nil => intro s h; simpa [runFuture] using h
  | cons e es ih =>
      intro s h
      have : runFuture selfId (e :: es) s = runFuture selfId es (stepFuture selfId e s) := by
        simp [runFuture]
      rw [this]
      exact ih _ (stepFuture_pres_inv selfId e s h)

/-- The source's allow-list is the spec's enumeration extended with the
domain-metadata method. -/
theorem mem_transactionMethods_iff (m : String) :
    m ∈ transactionMethods ↔
      m ∈ specEnumeratedReviewable ∨ m = "wallet_sendDomainMetadata" := by
  simp only [transactionMethods, specEnumeratedReviewable, List.mem_cons,
    List.not_mem_nil, or_false]
  tauto

/-! ## Claim theorems: provider interceptor -/

/-- C2: for every reviewable call id, the pending-futures map entry is
removed on the first resolution (decision message or timeout), and any
later decision message or timeout firing for that id is a no-op, so at
most one of approved-resume, rejected-fail, timeout-fail occurs. -/
theorem at_most_one_resolution_per_call_id (selfId : String) (es : List PageEvent)
    (h : (runFuture selfId es FutureState.start).outcome.isSome = true) :
    (runFuture selfId es FutureState.start).inMap = false ∧
    ∀ e : PageEvent,
      stepFuture selfId e (runFuture selfId es FutureState.start) =
        runFuture selfId es FutureState.start := by
  have hout : (runFuture selfId es FutureState.start).inMap = false :=
    runFuture_inv selfId es FutureState.start (by simp [FutureState.start]) h
  exact ⟨hout, fun e => stepFuture_settled selfId e _ hout⟩

/-- Witness for C2: the id `tx_1` settled by one approval response; a
later rejection response and a later timeout are both no-ops. -/
theorem at_most_one_resolution_per_call_id_witness :
    (runFuture "tx_1" [PageEvent.response "tx_1" true] FutureState.start).outcome.isSome
        = true ∧
    ((runFuture "tx_1" [PageEvent.response "tx_1" true] FutureState.start).inMap = false ∧
      ∀ e : PageEvent,
        stepFuture "tx_1" e (runFuture "tx_1" [PageEvent.response "tx_1" true] FutureState.start) =
          runFuture "tx_1" [PageEvent.response "tx_1" true] FutureState.start) :=
  ⟨by decide, at_most_one_resolution_per_call_id "tx_1" [PageEvent.response "tx_1" true]
      (by decide)⟩

/-- C4: for a pending reviewable call, an approved decision invokes the
original entry point exactly once with the identical original arguments
and resolves with its result (failure included, since `orig args` is
whatever the original produced); a rejected decision rejects with the
user-decline error and never invokes the original entry point. -/
theorem decision_semantics_approve_reject (orig : RpcArgs → RpcResult) (txId : String)
    (ts : Nat) (o u : String) (args : RpcArgs)
    (h : args.method ∈ transactionMethods) :
    (wrappedRequest orig txId ts o u .approvedResume args).result = orig args ∧
    (wrappedRequest orig txId ts o u .approvedResume args).origCalls = [args] ∧
    (wrappedRequest orig txId ts o u .rejectedFail args).result =
      RpcResult.failure "Transaction rejected by user" ∧
    (wrappedRequest orig txId ts o u .rejectedFail args).origCalls = [] := by
  simp [wrappedRequest, h]

/-- Witness for C4 at a concrete `eth_sendTransaction` call. -/
theorem decision_semantics_approve_reject_witness :
    (("eth_sendTransaction" : String) ∈ transactionMethods) ∧
    ((wrappedRequest origStub "tx_1" 0 "https://dapp.example" "ua" .approvedResume
        { method := "eth_sendTransaction", params := ["p0"] }).result =
          origStub { method := "eth_sendTransaction", params := ["p0"] } ∧
      (wrappedRequest origStub "tx_1" 0 "https://dapp.example" "ua" .approvedResume
        { method := "eth_sendTransaction", params := ["p0"] }).origCalls =
          [{ method := "eth_sendTransaction", params := ["p0"] }] ∧
      (wrappedRequest origStub "tx_1" 0 "https://dapp.example" "ua" .rejectedFail
        { method := "eth_sendTransaction", params := ["p0"] }).result =
          RpcResult.failure "Transaction rejected by user" ∧
      (wrappedRequest origStub "tx_1" 0 "https://dapp.example" "ua" .rejectedFail
        { method := "eth_sendTransaction", params := ["p0"] }).origCalls = []) :=
  ⟨by decide, decision_semantics_approve_reject origStub "tx_1" 0 "https://dapp.example" "ua"
      { method := "eth_sendTransaction", params := ["p0"] } (by decide)⟩

/-- C7: a method outside the reviewable set passes through untouched —
same result as the unwrapped entry point on identical arguments, invoked
exactly once, with no id generated, no future registered, and no
outbound message. -/
theorem passthrough_purity (orig : RpcArgs → RpcResult) (txId : String) (ts : Nat)
    (o u : String) (d : Outcome) (args : RpcArgs)
    (h : args.method ∉ transactionMethods) :
    wrappedRequest orig txId ts o u d args =
      { result := orig args
      , origCalls := [args]
      , idGenerated := false
      , futureRegistered := false
      , messagesPosted := [] } := by
  simp [wrappedRequest, h]

/-- Witness for C7 at the informational method `eth_accounts`. -/
theorem passthrough_purity_witness :
    (("eth_accounts" : String) ∉ transactionMethods) ∧
    wrappedRequest origStub "tx_1" 0 "https://dapp.example" "ua" .approvedResume
        { method := "eth_accounts", params := [] } =
      { result := origStub { method := "eth_accounts", params := [] }
      , origCalls := [{ method := "eth_accounts", params := [] }]
      , idGenerated := false
      , futureRegistered := false
      , messagesPosted := [] } :=
  ⟨by decide, passthrough_purity origStub "tx_1" 0 "https://dapp.example" "ua"
      .approvedResume { method := "eth_accounts", params := [] } (by decide)⟩

/-- Counterexample to C3: `wallet_sendDomainMetadata` is suspended by the
interceptor (a future is registered for it) yet it is not one of the
spec's enumerated reviewable methods. -/
theorem reviewable_enumeration_counterexample :
    (wrappedRequest origStub "tx_1" 0 "https://dapp.example" "ua" .approvedResume
        { method := "wallet_sendDomainMetadata", params := [] }).futureRegistered = true ∧
    ("wallet_sendDomainMetadata" : String) ∉ specEnumeratedReviewable := by
  exact ⟨by decide, by decide⟩

/-- C3 as amended: the interceptor suspends a call if and only if its
method is one of the spec's enumerated reviewable methods or the
additional `wallet_sendDomainMetadata`. -/
theorem reviewable_classification_amended (orig : RpcArgs → RpcResult) (txId : String)
    (ts : Nat) (o u : String) (d : Outcome) (args : RpcArgs) :
    (wrappedRequest orig txId ts o u d args).futureRegistered = true ↔
      (args.method ∈ specEnumeratedReviewable ∨
        args.method = "wallet_sendDomainMetadata") := by
  by_cases h : args.method ∈ transactionMethods
  · simp only [wrappedRequest, if_pos h]
    simpa using (mem_transactionMethods_iff args.method).mp h
  · simp only [wrappedRequest, if_neg h]
    simp only [Bool.false_eq_true, false_iff]
    exact fun hc => h ((mem_transactionMethods_iff args.method).mpr hc)

/-- C1: when the cross-boundary delivery fails (the relay's
`chrome.runtime.sendMessage` reports an error), the relay synthesizes an
immediate rejection response, so the call's future settles as
rejected-fail with its map entry removed, without any timeout firing in
the trace; the rejected call's promise fails with the user-decline error
and the original entry point is never invoked. -/
theorem fail_closed_on_relay_delivery_failure (txId : String)
    (orig : RpcArgs → RpcResult) (ts : Nat) (o u : String) (args : RpcArgs)
    (h : args.method ∈ transactionMethods) :
    runFuture txId (relayOnIntercepted false true txId) FutureState.start =
      { inMap := false, outcome := some Outcome.rejectedFail } ∧
    PageEvent.timeoutFire txId ∉ relayOnIntercepted false true txId ∧
    (wrappedRequest orig txId ts o u .rejectedFail args).result =
      RpcResult.failure "Transaction rejected by user" ∧
    (wrappedRequest orig txId ts o u .rejectedFail args).origCalls = [] := by
  refine ⟨?_, ?_, ?_, ?_⟩
  · simp [relayOnIntercepted, runFuture, stepFuture, FutureState.start]
  · simp [relayOnIntercepted]
  · simp [wrappedRequest, h]
  · simp [wrappedRequest, h]

/-- Witness for C1 at a concrete `eth_sendTransaction` call. -/
theorem fail_closed_on_relay_delivery_failure_witness :
    (("eth_sendTransaction" : String) ∈ transactionMethods) ∧
    (runFuture "tx_1" (relayOnIntercepted false true "tx_1") FutureState.start =
        { inMap := false, outcome := some Outcome.rejectedFail } ∧
      PageEvent.timeoutFire "tx_1" ∉ relayOnIntercepted false true "tx_1" ∧
      (wrappedRequest origStub "tx_1" 0 "https://dapp.example" "ua" .rejectedFail
          { method := "eth_sendTransaction", params := ["p0"] }).result =
        RpcResult.failure "Transaction rejected by user" ∧
      (wrappedRequest origStub "tx_1" 0 "https://dapp.example" "ua" .rejectedFail
          { method := "eth_sendTransaction", params := ["p0"] }).origCalls = []) :=
  ⟨by decide, fail_closed_on_relay_delivery_failure "tx_1" origStub 0 "https://dapp.example"
      "ua" { method := "eth_sendTransaction", params := ["p0"] } (by decide)⟩

/-! ## Claim theorems: install idempotence -/

/-- After `wrapRequestMethod`, the provider's identity is in the
`WeakSet`. -/
theorem installWrap_mem (p : Provider) (s : InstallState) :
    p.pid ∈ (installWrap p s).wrappedProviders := by
  unfold installWrap
  split
  · assumption
  · exact List.mem_cons_self _ _

/-- `wrapRequestMethod` on an already-tracked provider is a no-op. -/
theorem installWrap_of_mem (p : Provider) (s : InstallState)
    (h : p.pid ∈ s.wrappedProviders) : installWrap p s = s := by
  simp [installWrap, h]

/-- C6: install is idempotent — wrapping the same provider instance
twice leaves exactly one wrapping layer; the tracking set keys on
provider identity (a distinct identity is unaffected); and through the
single layer the original entry point is invoked at most once per call,
exactly once for a pass-through or approved call. -/
theorem install_idempotent (p : Provider) (s : InstallState)
    (hreq : p.hasRequest = true) (hnew : p.pid ∉ s.wrappedProviders)
    (hl : s.layers p.pid = 0) :
    installWrap p (installWrap p s) = installWrap p s ∧
    (installWrap p (installWrap p s)).layers p.pid = 1 ∧
    (∀ q : Provider, q.pid ≠ p.pid →
      (q.pid ∈ (installWrap p s).wrappedProviders ↔ q.pid ∈ s.wrappedProviders)) ∧
    (∀ (orig : RpcArgs → RpcResult) (txId : String) (ts : Nat) (o u : String)
        (d : Outcome) (args : RpcArgs),
      (wrappedRequest orig txId ts o u d args).origCalls.length ≤ 1 ∧
      ((d = .approvedResume ∨ args.method ∉ transactionMethods) →
        (wrappedRequest orig txId ts o u d args).origCalls.length = 1)) := by
  have hidem : installWrap p (installWrap p s) = installWrap p s :=
    installWrap_of_mem p _ (installWrap_mem p s)
  have hlayer : (installWrap p s).layers p.pid = 1 := by
    simp [installWrap, hnew, hreq, hl]
  refine ⟨hidem, by rw [hidem]; exact hlayer, ?_, ?_⟩
  · intro q hq
    simp [installWrap, hnew, List.mem_cons, hq]
  · intro orig txId ts o u d args
    constructor
    · unfold wrappedRequest
      split <;> cases d <;> simp
    · intro hd
      unfold wrappedRequest
      rcases hd with hd | hd
      · subst hd; split <;> simp
      · rw [if_neg hd]; simp

/-- Witness for C6: a fresh provider of identity 0 installed twice on a
fresh page. -/
theorem install_idempotent_witness :
    (({ pid := 0, hasRequest := true } : Provider).hasRequest = true ∧
      ¬ (0 : Nat) ∈ InstallState.start.wrappedProviders ∧
      InstallState.start.layers 0 = 0) ∧
    (installWrap { pid := 0, hasRequest := true }
        (installWrap { pid := 0, hasRequest := true } InstallState.start) =
      installWrap { pid := 0, hasRequest := true } InstallState.start ∧
    (installWrap { pid := 0, hasRequest := true }
        (installWrap { pid := 0, hasRequest := true } InstallState.start)).layers 0 = 1 ∧
    (∀ q : Provider, q.pid ≠ 0 →
      (q.pid ∈ (installWrap { pid := 0, hasRequest := true }
          InstallState.start).wrappedProviders ↔
        q.pid ∈ InstallState.start.wrappedProviders)) ∧
    (∀ (orig : RpcArgs → RpcResult) (txId : String) (ts : Nat) (o u : String)
        (d : Outcome) (args : RpcArgs),
      (wrappedRequest orig txId ts o u d args).origCalls.length ≤ 1 ∧
      ((d = .approvedResume ∨ args.method ∉ transactionMethods) →
        (wrappedRequest orig txId ts o u d args).origCalls.length = 1))) :=
  ⟨⟨rfl, by decide, rfl⟩,
    install_idempotent { pid := 0, hasRequest := true } InstallState.start rfl
      (by decide) rfl⟩

/-! ## Claim theorems: coordinator pending collection -/

/-- Number of pending-collection entries carrying a given id. -/
def countById (txId : String) (l : List InterceptedTx) : Nat :=
  (l.filter (fun tx => tx.id == txId)).length

/-- A concrete intercepted call used in witnesses and counterexamples. -/
def txSample : InterceptedTx :=
  { id := "tx_1"
  , method := "eth_sendTransaction"
  , params := ["p0"]
  , timestamp := 1
  , origin := "https://dapp.example"
  , userAgent := "ua"
  , intercepted := true
  , status := .pending
  , tabId := none }

/-- Counterexample to C8: submitting the same call id twice leaves two
entries with that id in the pending collection — duplicates are not
rejected. -/
theorem duplicate_submit_counterexample :
    ¬ countById "tx_1"
        (handlePendingTransaction txSample (some 7)
          (handlePendingTransaction txSample (some 7) CoordState.empty)).pending ≤ 1 := by
  decide

/-- C8 as amended: `handlePendingTransaction` appends unconditionally —
it performs no duplicate-id check, so every submission adds one entry
with the submitted id even when that id is already present. -/
theorem submit_appends_unconditionally (tx : InterceptedTx) (tabId : Option Nat)
    (s : CoordState) :
    (handlePendingTransaction tx tabId s).pending =
      s.pending ++ [{ tx with tabId := tabId }] ∧
    countById tx.id (handlePendingTransaction tx tabId s).pending =
      countById tx.id s.pending + 1 := by
  constructor
  · rfl
  · simp [handlePendingTransaction, countById, List.filter_append]

/-! ## Claim theorems: decided records and the history collection -/

/-- `removeFirstById` returns a record stored in the list, and that
record carries the requested id. -/
theorem removeFirstById_mem (txId : String) :
    ∀ (l rest : List InterceptedTx) (tx : InterceptedTx),
      removeFirstById txId l = some (tx, rest) → tx ∈ l ∧ tx.id = txId := by
  intro l
  induction l with
  | nil => intro rest tx h; simp [removeFirstById] at h
  | cons a as ih =>
      intro rest tx h
      by_cases ha : a.id = txId
      · rw [removeFirstById, if_pos ha] at h
        cases h
        exact ⟨List.mem_cons_self _ _, ha⟩
      · rw [removeFirstById, if_neg ha] at h
        cases hrec : removeFirstById txId as with
        | some prest =>
            obtain ⟨t, rest'⟩ := prest
            rw [hrec] at h
            cases h
            have hm := ih _ _ hrec
            exact ⟨List.mem_cons_of_mem _ hm.1, hm.2⟩
        | none => rw [hrec] at h; cases h

/-- C9: when the coordinator decides a pending call, the record moved to
history is the stored pending record unchanged in every field except
`status`, which becomes `approved` or `rejected` matching the decision;
the rest of the pending collection is kept as is. -/
theorem decision_moves_record_intact (s : CoordState) (txId : String)
    (tx : InterceptedTx) (rest : List InterceptedTx)
    (h : removeFirstById txId s.pending = some (tx, rest)) :
    tx ∈ s.pending ∧ tx.id = txId ∧
    (∃ a : InterceptedTx,
      approveTransaction txId s = some { pending := rest, history := s.history ++ [a] } ∧
      a.id = tx.id ∧ a.method = tx.method ∧ a.params = tx.params ∧
      a.origin = tx.origin ∧ a.timestamp = tx.timestamp ∧ a.userAgent = tx.userAgent ∧
      a.intercepted = tx.intercepted ∧ a.tabId = tx.tabId ∧
      a.status = TxStatus.approved) ∧
    (∃ r : InterceptedTx,
      rejectTransaction txId s = some { pending := rest, history := s.history ++ [r] } ∧
      r.id = tx.id ∧ r.method = tx.method ∧ r.params = tx.params ∧
      r.origin = tx.origin ∧ r.timestamp = tx.timestamp ∧ r.userAgent = tx.userAgent ∧
      r.intercepted = tx.intercepted ∧ r.tabId = tx.tabId ∧
      r.status = TxStatus.rejected) := by
  obtain ⟨hmem, hid⟩ := removeFirstById_mem txId s.pending rest tx h
  refine ⟨hmem, hid,
    ⟨{ tx with status := .approved }, ?_, rfl, rfl, rfl, rfl, rfl, rfl, rfl, rfl, rfl⟩,
    ⟨{ tx with status := .rejected }, ?_, rfl, rfl, rfl, rfl, rfl, rfl, rfl, rfl, rfl⟩⟩
  · simp [approveTransaction, h]
  · simp [rejectTransaction, h]

/-- Witness for C9: one pending call decided from a one-element pending
collection. -/
theorem decision_moves_record_intact_witness :
    removeFirstById "tx_1" ({ pending := [txSample], history := [] } : CoordState).pending
        = some (txSample, []) ∧
    (txSample ∈ ({ pending := [txSample], history := [] } : CoordState).pending ∧
      txSample.id = "tx_1" ∧
      (∃ a : InterceptedTx,
        approveTransaction "tx_1" { pending := [txSample], history := [] } =
          some { pending := [], history := [] ++ [a] } ∧
        a.id = txSample.id ∧ a.method = txSample.method ∧ a.params = txSample.params ∧
        a.origin = txSample.origin ∧ a.timestamp = txSample.timestamp ∧
        a.userAgent = txSample.userAgent ∧ a.intercepted = txSample.intercepted ∧
        a.tabId = txSample.tabId ∧ a.status = TxStatus.approved) ∧
      (∃ r : InterceptedTx,
        rejectTransaction "tx_1" { pending := [txSample], history := [] } =
          some { pending := [], history := [] ++ [r] } ∧
        r.id = txSample.id ∧ r.method = txSample.method ∧ r.params = txSample.params ∧
        r.origin = txSample.origin ∧ r.timestamp = txSample.timestamp ∧
        r.userAgent = txSample.userAgent ∧ r.intercepted = txSample.intercepted ∧
        r.tabId = txSample.tabId ∧ r.status = TxStatus.rejected)) :=
  ⟨by decide,
    decision_moves_record_intact { pending := [txSample], history := [] } "tx_1"
      txSample [] (by decide)⟩

/-- One submit-then-approve round for call `t<i>`. -/
def submitThenApprove (s : CoordState) (i : Nat) : CoordState :=
  match approveTransaction ("t" ++ toString i)
      (handlePendingTransaction { txSample with id := "t" ++ toString i, timestamp := i }
        (some 1) s) with
  | some s2 => s2
  | none => s

/-- `n` calls submitted and approved in sequence, history enabled. -/
def approvalScenario (n : Nat) : CoordState :=
  (List.range n).foldl submitThenApprove CoordState.empty

/-- One round on a drained store empties pending again and grows
history by exactly one: no eviction happens on the approval path. -/
theorem submitThenApprove_spec (s : CoordState) (i : Nat) (hp : s.pending = []) :
    (submitThenApprove s i).pending = [] ∧
    (submitThenApprove s i).history.length = s.history.length + 1 := by
  cases s with
  | mk pend hist =>
      have hp' : pend = [] := hp
      subst hp'
      simp [submitThenApprove, handlePendingTransaction, approveTransaction,
        removeFirstById]

/-- In the scenario every round drains pending and grows history by
one. -/
theorem approvalScenario_spec (n : Nat) :
    (approvalScenario n).pending = [] ∧ (approvalScenario n).history.length = n := by
  induction n with
  | zero => constructor <;> rfl
  | succ m ih =>
      have hstep : approvalScenario (m + 1) = submitThenApprove (approvalScenario m) m := by
        simp [approvalScenario, List.range_succ]
      obtain ⟨hp, hh⟩ := ih
      obtain ⟨hp', hh'⟩ := submitThenApprove_spec (approvalScenario m) m hp
      rw [hstep]
      exact ⟨hp', by omega⟩

/-- Counterexample to C5: a sequence of operations making 150 calls
terminal (each submitted for approval, then approved) after which the
history collection holds 150 entries, exceeding the 100 bound. -/
theorem history_bound_counterexample :
    ¬ (approvalScenario 150).history.length ≤ 100 := by
  have h := (approvalScenario_spec 150).2
  omega

/-- C5 as amended: the 100-entry eviction is enforced only on the
`handleTransactionIntercepted` insertion path, whose result never
exceeds 100 entries; the approve and reject paths append to history with
no trim, growing it by one per decided call without bound. -/
theorem history_bound_amended (s : CoordState) (tx : InterceptedTx) (txId : String)
    (sa sr : CoordState)
    (ha : approveTransaction txId s = some sa)
    (hr : rejectTransaction txId s = some sr) :
    (handleTransactionIntercepted tx s).history.length = min (s.history.length + 1) 100 ∧
    (handleTransactionIntercepted tx s).history.length ≤ 100 ∧
    sa.history.length = s.history.length + 1 ∧
    sr.history.length = s.history.length + 1 := by
  have hcap : (handleTransactionIntercepted tx s).history.length =
      min (s.history.length + 1) 100 := by
    simp only [handleTransactionIntercepted]
    split
    · simp only [List.length_drop, List.length_append, List.length_cons,
        List.length_nil]
      omega
    · simp only [List.length_append, List.length_cons, List.length_nil]
      rename_i hle
      simp only [List.length_append, List.length_cons, List.length_nil] at hle
      omega
  have hgrow : sa.history.length = s.history.length + 1 := by
    unfold approveTransaction at ha
    cases hrem : removeFirstById txId s.pending with
    | some prest =>
        obtain ⟨t, rest⟩ := prest
        rw [hrem] at ha
        cases ha
        simp
    | none => rw [hrem] at ha; cases ha
  have hgrowr : sr.history.length = s.history.length + 1 := by
    unfold rejectTransaction at hr
    cases hrem : removeFirstById txId s.pending with
    | some prest =>
        obtain ⟨t, rest⟩ := prest
        rw [hrem] at hr
        cases hr
        simp
    | none => rw [hrem] at hr; cases hr
  exact ⟨hcap, by omega, hgrow, hgrowr⟩

/-- Witness for C5's amended statement: deciding the one pending call of
a concrete store. -/
theorem history_bound_amended_witness :
    (approveTransaction "tx_1" { pending := [txSample], history := [] } =
        some { pending := [], history := [{ txSample with status := .approved }] } ∧
      rejectTransaction "tx_1" { pending := [txSample], history := [] } =
        some { pending := [], history := [{ txSample with status := .rejected }] }) ∧
    ((handleTransactionIntercepted txSample
        { pending := [txSample], history := [] }).history.length =
      min (({ pending := [txSample], history := [] } : CoordState).history.length + 1) 100 ∧
    (handleTransactionIntercepted txSample
        { pending := [txSample], history := [] }).history.length ≤ 100 ∧
    ({ pending := ([] : List InterceptedTx),
        history := [{ txSample with status := TxStatus.approved }] } :
          CoordState).history.length =
      ({ pending := [txSample], history := [] } : CoordState).history.length + 1 ∧
    ({ pending := ([] : List InterceptedTx),
        history := [{ txSample with status := TxStatus.rejected }] } :
          CoordState).history.length =
      ({ pending := [txSample], history := [] } : CoordState).history.length + 1) :=
  ⟨⟨by decide, by decide⟩,
    history_bound_amended { pending := [txSample], history := [] } txSample "tx_1"
      { pending := [], history := [{ txSample with status := .approved }] }
      { pending := [], history := [{ txSample with status := .rejected }] }
      (by decide) (by decide)⟩

/-! ## Claim theorems: static analyzer risk bound -/

/-- A risk known to be low-or-medium is not high. -/
theorem risk_ne_high {r : Risk} (h : r = Risk.low ∨ r = Risk.medium) :
    r ≠ Risk.high := by
  rcases h with h | h <;> simp [h]

/-- The known-malicious-address list is empty, so the recipient test is
always false. -/
theorem maliciousRecipient_false (tx : EthTxParams) :
    maliciousRecipient tx = false := by
  unfold maliciousRecipient
  cases truthyStr tx.«to» <;> rfl

/-- With the malicious list empty, the malicious-recipient block adds no
warning and keeps the risk unchanged. -/
theorem maliciousStep_id (tx : EthTxParams) (r : Risk) :
    maliciousStep tx r = ([], r) := by
  simp [maliciousStep, maliciousRecipient_false]

/-- The function-signature block only ever yields low or medium risk. -/
theorem functionSigStep_risk (tx : EthTxParams) :
    (functionSigStep tx).2.2 = Risk.low ∨ (functionSigStep tx).2.2 = Risk.medium := by
  unfold functionSigStep
  cases contractData tx with
  | none => simp
  | some d =>
      by_cases h : d.length ≥ 10
      · by_cases hr : isRiskyFunction (d.take 10) <;> simp [h, hr]
      · simp [h]

/-- The high-value block maps low-or-medium risk to low-or-medium
risk. -/
theorem highValueStep_risk (tx : EthTxParams) (r : Risk)
    (h : r = Risk.low ∨ r = Risk.medium) :
    (highValueStep tx r).2 = Risk.low ∨ (highValueStep tx r).2 = Risk.medium := by
  unfold highValueStep
  cases hv : valueWei tx with
  | none => simpa [hv] using h
  | some n =>
      simp only [hv]
      split
      · rcases h with h | h <;> simp [h]
      · simpa using h

/-- The high-value warning is never the danger warning: the strings
differ in their first character. -/
theorem value_warning_ne_danger (s : String) :
    "⚠️ High value transfer: " ++ s ≠ "🚨 DANGER: Known malicious address!" := by
  intro h
  have hd := congrArg String.data h
  rw [String.data_append] at hd
  have hh := congrArg List.head? hd
  have h1 : ("⚠️ High value transfer: ".data ++ s.data).head? = some '⚠' := rfl
  rw [h1] at hh
  exact absurd hh (by decide)

/-- The gas warning is never the danger warning. -/
theorem gas_warning_ne_danger (s : String) :
    "⚠️ Very high gas price: " ++ s ≠ "🚨 DANGER: Known malicious address!" := by
  intro h
  have hd := congrArg String.data h
  rw [String.data_append] at hd
  have hh := congrArg List.head? hd
  have h1 : ("⚠️ Very high gas price: ".data ++ s.data).head? = some '⚠' := rfl
  rw [h1] at hh
  exact absurd hh (by decide)

/-- The function-signature block never pushes the danger warning. -/
theorem danger_not_mem_functionSig (tx : EthTxParams) :
    "🚨 DANGER: Known malicious address!" ∉ (functionSigStep tx).2.1 := by
  unfold functionSigStep
  cases contractData tx with
  | none => simp
  | some d =>
      by_cases h : d.length ≥ 10
      · by_cases hr : isRiskyFunction (d.take 10) <;> simp [h, hr]
      · simp [h]

/-- The high-value block never pushes the danger warning. -/
theorem danger_not_mem_highValue (tx : EthTxParams) (r : Risk) :
    "🚨 DANGER: Known malicious address!" ∉ (highValueStep tx r).1 := by
  unfold highValueStep
  cases hv : valueWei tx with
  | none => simp [hv]
  | some n =>
      simp only [hv]
      split
      · simp only [List.mem_singleton]
        exact fun hc => value_warning_ne_danger _ hc.symm
      · simp

/-- The gas block never pushes the danger warning. -/
theorem danger_not_mem_gas (tx : EthTxParams) :
    "🚨 DANGER: Known malicious address!" ∉ gasWarnings tx := by
  unfold gasWarnings
  cases gasSelected tx with
  | none => simp
  | some g =>
      cases hp : jsParseHex g with
      | none => simp [hp]
      | some n =>
          simp only [hp]
          split
          · simp only [List.mem_singleton]
            exact fun hc => gas_warning_ne_danger _ hc.symm
          · simp

/-- The whole `eth_sendTransaction` block yields low-or-medium risk and
never the danger warning. -/
theorem sendTransactionChecks_safe (tx : EthTxParams) :
    ((sendTransactionChecks tx).1 = Risk.low ∨
      (sendTransactionChecks tx).1 = Risk.medium) ∧
    "🚨 DANGER: Known malicious address!" ∉ (sendTransactionChecks tx).2.1 := by
  simp only [sendTransactionChecks, maliciousStep_id]
  constructor
  · exact highValueStep_risk tx _ (functionSigStep_risk tx)
  · simp [List.mem_append, danger_not_mem_functionSig, danger_not_mem_highValue,
      danger_not_mem_gas]

/-- The signing and `wallet_` blocks preserve low-or-medium risk and
never push the danger warning. -/
theorem signWalletChecks_safe (method : String) (r : Risk) (w : List String)
    (hr : r = Risk.low ∨ r = Risk.medium)
    (hw : "🚨 DANGER: Known malicious address!" ∉ w) :
    ((signWalletChecks method r w).1 = Risk.low ∨
      (signWalletChecks method r w).1 = Risk.medium) ∧
    "🚨 DANGER: Known malicious address!" ∉ (signWalletChecks method r w).2 := by
  simp only [signWalletChecks]
  split_ifs <;> constructor <;>
    simp_all [List.mem_append]

/-- C10: for every method string and parameter list, the analyzer
returns risk `'low'` or `'medium'`, never `'high'` (the only branch
assigning `'high'` tests membership in the empty malicious-address
list), and the malicious-address danger warning never appears among the
returned warnings. -/
theorem analyzer_never_high_risk (method : String) (param0 : Option EthTxParams) :
    (analyzeTransaction method param0).risk ≠ Risk.high ∧
    "🚨 DANGER: Known malicious address!" ∉ (analyzeTransaction method param0).warnings := by
  cases param0 with
  | none =>
      have h := signWalletChecks_safe method Risk.low [] (Or.inl rfl) (by simp)
      exact ⟨risk_ne_high h.1, h.2⟩
  | some tx =>
      by_cases hm : method = "eth_sendTransaction"
      · subst hm
        obtain ⟨h1, h2⟩ := sendTransactionChecks_safe tx
        have h := signWalletChecks_safe "eth_sendTransaction" (sendTransactionChecks tx).1
          (sendTransactionChecks tx).2.1 h1 h2
        have hrw : analyzeTransaction "eth_sendTransaction" (some tx) =
            { risk := (signWalletChecks "eth_sendTransaction" (sendTransactionChecks tx).1
                (sendTransactionChecks tx).2.1).1
            , warnings := (signWalletChecks "eth_sendTransaction" (sendTransactionChecks tx).1
                (sendTransactionChecks tx).2.1).2
            , details := (sendTransactionChecks tx).2.2 } := by
          simp [analyzeTransaction]
        rw [hrw]
        exact ⟨risk_ne_high h.1, h.2⟩
      · have h := signWalletChecks_safe method Risk.low [] (Or.inl rfl) (by simp)
        have hrw : analyzeTransaction method (some tx) =
            { risk := (signWalletChecks method Risk.low []).1
            , warnings := (signWalletChecks method Risk.low []).2
            , details := { isContractInteraction := false, functionName := none
                         , tokenTransfer := none } } := by
          simp [analyzeTransaction, hm]
        rw [hrw]
        exact ⟨risk_ne_high h.1, h.2⟩

end Intercepta
